import Mathlib

/-!
# Verification of the mithran CAD Engine request pipeline (src/cad-engine/main.py)

Shallow embedding of the two conversion endpoints of `main.py`
(`convert_step_to_stl` and `convert_step_to_stl_base64`), the cleanup helper
`cleanup_files`, the registered `cad_engine_exception_handler`, and the
rate-limiting wrapper around the handlers.

The external collaborators invoked by the handlers (`FileValidator.validate_file`,
`ConversionService.convert`) live in repository modules that are not part of the
embedded source; each call site is modelled by an oracle describing the possible
outcomes of the call (normal return, the documented exception, or an unexpected
exception), exactly as `main.py` observes them.
-/

/-! ## Filename handling (Python `pathlib.PurePath.stem` / `.suffix`)

A pathlib name is split on the last component (after the final slash); the
suffix is the part from the final dot, but only when that dot is neither the
first nor the last character of the name. -/

/-- The last path component of a raw filename, as `pathlib` computes `.name`. -/
def baseNameChars (s : List Char) : List Char :=
  (s.reverse.takeWhile (fun c => c != '/')).reverse

/-- Split a path component into `(stem, suffix)` following `pathlib`:
the suffix starts at the last dot, unless that dot is the first or the last
character, in which case the suffix is empty. -/
def splitExtChars (name : List Char) : List Char × List Char :=
  let r := name.reverse
  let t := r.takeWhile (fun c => c != '.')
  match r.dropWhile (fun c => c != '.') with
  | [] => (name, [])
  | _ :: rest =>
    if t.isEmpty then (name, [])
    else if rest.isEmpty then (name, [])
    else (rest.reverse, '.' :: t.reverse)

/-- `pathlib.Path(s).stem`. -/
def pathStem (s : String) : String := ⟨(splitExtChars (baseNameChars s.data)).1⟩

/-- `pathlib.Path(s).suffix`. -/
def pathSuffix (s : String) : String := ⟨(splitExtChars (baseNameChars s.data)).2⟩

/-- `pathlib.Path(s).name`. -/
def baseName (s : String) : String := ⟨baseNameChars s.data⟩

/-- Python `str.lower()` on a suffix (ASCII case folding suffices here). -/
def lowerStr (s : String) : String := ⟨s.data.map Char.toLower⟩

/-- `Path(file.filename).suffix.lower()`, as computed in both handlers. -/
def fileExtOf (filename : String) : String := lowerStr (pathSuffix filename)

theorem splitExtChars_fst_append_snd (n : List Char) :
    (splitExtChars n).1 ++ (splitExtChars n).2 = n := by
  unfold splitExtChars
  have h := List.takeWhile_append_dropWhile (p := fun c => c != '.') (l := n.reverse)
  cases hd : n.reverse.dropWhile (fun c => c != '.') with
  | nil => simp [hd]
  | cons a rest =>
    by_cases ht : (n.reverse.takeWhile (fun c => c != '.')).isEmpty
    · simp [hd, ht]
    · by_cases hr : rest.isEmpty
      · simp [hd, ht, hr]
      · have hn : n = rest.reverse ++ '.' :: (n.reverse.takeWhile (fun c => c != '.')).reverse := by
          conv_lhs => rw [← n.reverse_reverse, ← h, hd]
          have ha : a = '.' := by
            have := List.head?_dropWhile_not (p := fun c => c != '.') (l := n.reverse)
            rw [hd] at this
            simpa using this
          subst ha
          simp
        simp [hd, ht, hr]
        exact hn.symm

/-- The stem and suffix recombine to the last path component of the filename. -/
theorem pathStem_append_pathSuffix (s : String) :
    pathStem s ++ pathSuffix s = baseName s := by
  show String.mk _ ++ String.mk _ = String.mk _
  have : (String.mk (splitExtChars (baseNameChars s.data)).1) ++
      (String.mk (splitExtChars (baseNameChars s.data)).2) =
      String.mk ((splitExtChars (baseNameChars s.data)).1 ++
        (splitExtChars (baseNameChars s.data)).2) := rfl
  rw [this, splitExtChars_fst_append_snd]

/-! ## Temp paths

`tempfile.NamedTemporaryFile(delete=False, suffix=file_ext, dir=config.temp_dir)`
allocates a file `<temp_dir>/<unique random stem><suffix>`; the random stem
("tmp" followed by random alphanumerics) contains no dot, so `pathlib`'s
`with_suffix` on such a path replaces exactly the `suffix` component. A path is
therefore represented by its directory, its unique stem (abstracted as the
allocation nonce — `tempfile` guarantees a collision-free fresh name), and its
suffix. -/

structure FsPath where
  dir : String
  nonce : Nat
  suffix : String
deriving DecidableEq, Repr

/-- `pathlib.Path(p).with_suffix(suf)` on a tempfile-shaped path (dot-free stem). -/
def withSuffix (p : FsPath) (suf : String) : FsPath := { p with suffix := suf }

/-! ## Configuration and request environment -/

/-- The fields of `AppConfig` that the two handlers read. The mesh deflection
settings are only ever echoed into responses, so they are kept opaque. -/
structure Config where
  temp_dir : String
  linear_deflection : String
  angular_deflection : String
  rate_limit_per_minute : Nat
deriving DecidableEq, Repr

/-- An unexpected exception escaping one of the called services — either a
`CADEngineException` subclass other than the two explicitly caught ones
(carrying its class name and message) or any other Python exception. -/
inductive Exc where
  | cadEngine (typeName msg : String)
  | other (msg : String)
deriving DecidableEq, Repr

/-- Oracle for the `file_validator.validate_file(step_path, file.filename)` call
site: normal return of `(validated_ext, file_size)`, a raised
`FileValidationError`, or an unexpected exception. -/
inductive ValOutcome where
  | ok (ext : String) (size : Nat)
  | fve (msg : String)
  | crash (e : Exc)
deriving DecidableEq, Repr

/-- The bytes that `StlWriter` puts at the output path on success.

Modelled from the spec: `services.StlWriter` is repository code not under
`src/`; per the spec the service writes STL Binary Format output
(`StlWriter(ascii_mode=False)` — an 80-byte header and a 4-byte triangle count
precede the triangle records), so a successfully written file holds at least 84
bytes, each a value below 256. -/
structure BinaryStl where
  data : List Nat
  bytesLt : ∀ b ∈ data, b < 256
  minLen : 84 ≤ data.length

/-- Oracle for the `conversion_service.convert(step_path, stl_path)` call site:
normal return (the STL bytes were written to the output path), a raised
`ConversionError` (possibly leaving a partially written output file), or an
unexpected exception (likewise). -/
inductive ConvOutcome where
  | ok (stl : BinaryStl)
  | ce (msg : String) (outWritten : Option (List Nat))
  | crash (e : Exc) (outWritten : Option (List Nat))

/-- One request's environment: the upload plus the oracles describing how each
fallible step of the handler body behaves on this request.
`persistCrash = some (afterAlloc, e)` means an unexpected exception during
temp-file creation / `file.read()` / write (`afterAlloc` records whether the
temp file already existed); `respondCrash` an unexpected exception while
building the response (reading the output file or `FileResponse` setup). -/
structure Env where
  filename : String
  nonce : Nat
  content : List Nat
  persistCrash : Option (Bool × Exc)
  valOutcome : ValOutcome
  convOutcome : ConvOutcome
  respondCrash : Option Exc

/-- The temp input path of a request: `tempfile.NamedTemporaryFile(delete=False,
suffix=file_ext, dir=config.temp_dir)` with `file_ext =
Path(file.filename).suffix.lower()`. -/
def stepPathOf (cfg : Config) (env : Env) : FsPath :=
  ⟨cfg.temp_dir, env.nonce, fileExtOf env.filename⟩

/-- The output path of a request: `str(Path(step_path).with_suffix('.stl'))`. -/
def stlPathOf (cfg : Config) (env : Env) : FsPath :=
  withSuffix (stepPathOf cfg env) ".stl"

/-! ## Observable events and responses -/

inductive Event where
  | alloc (p : FsPath)
  | writeBytes (p : FsPath)
  | validate (p : FsPath) (succeeded : Bool)
  | convert (inp outp : FsPath)
  | unlink (p : FsPath)
deriving DecidableEq, Repr

/-- The JSON body returned by the base64 endpoint on success. -/
structure B64Body where
  success : Bool
  original_filename : String
  stl_filename : String
  stl_size : Nat
  stl_base64 : List Char
  mesh_quality : String × String
deriving DecidableEq, Repr

/-- Client-visible outcome of a request. `file` carries the bytes streamed by
the `FileResponse`, the download filename, and the response headers;
`httpErr` is a raised `HTTPException` (status, detail); `cadErr` is the JSON
produced by the registered `CADEngineException` handler; `serverErr` is the
framework's generic 500 for an uncaught non-`CADEngineException`;
`rateLimited` is slowapi's 429. -/
inductive Response where
  | file (data : List Nat) (downloadName : String) (headers : List (String × String))
  | jsonOk (body : B64Body)
  | httpErr (status : Nat) (detail : String)
  | cadErr (detail : String) (typeName : String)
  | serverErr
  | rateLimited
deriving DecidableEq, Repr

/-- HTTP status code of a response. -/
def statusOf : Response → Nat
  | .file _ _ _ => 200
  | .jsonOk _ => 200
  | .httpErr s _ => s
  | .cadErr _ _ => 422
  | .serverErr => 500
  | .rateLimited => 429

/-! ## Filesystem state of one request and `cleanup_files` -/

/-- The temp files of one request currently on disk, with their contents. -/
abbrev FsState := List (FsPath × List Nat)

/-- Create or overwrite a file. -/
def writeFs (fs : FsState) (p : FsPath) (d : List Nat) : FsState :=
  (p, d) :: fs.filter (fun e => e.1 != p)

/-- Bytes currently at a path (the handlers only read paths they just wrote). -/
def readFs (fs : FsState) (p : FsPath) : List Nat :=
  match fs.find? (fun e => e.1 == p) with
  | some e => e.2
  | none => []

/-- One iteration of the loop in `cleanup_files`: skip a `None`/missing path,
otherwise `os.unlink` it. -/
def cleanup1 (fs : FsState) : Option FsPath → FsState × List Event
  | none => (fs, [])
  | some p =>
    if fs.any (fun e => e.1 == p) then
      (fs.filter (fun e => e.1 != p), [Event.unlink p])
    else (fs, [])

/-- `cleanup_files(a, b)` — every call site passes one or two paths, either of
which may be `None` (Python `step_path`/`stl_path` start as `None`). -/
def cleanup_files (fs : FsState) (a b : Option FsPath) : FsState × List Event :=
  let r1 := cleanup1 fs a
  let r2 := cleanup1 r1.1 b
  (r2.1, r1.2 ++ r2.2)

/-- Result of running one request to completion (including, for the binary
endpoint, the scheduled background cleanup task): the request's surviving temp
files, the event trace, and the response. -/
structure RequestResult where
  files : FsState
  trace : List Event
  resp : Response

/-! ## Error handlers registered on the app -/

/-- The `@app.exception_handler(CADEngineException)` handler: a 422
`JSONResponse` whose content echoes `str(exc)` as `detail` and the exception's
class name as `type`. -/
def cad_engine_exception_handler (exc : Exc) : Response :=
  match exc with
  | .cadEngine typeName msg => .cadErr msg typeName
  | .other _ => .serverErr

/-- What the framework does with an exception that escapes a handler body:
a `CADEngineException` is routed to the registered handler, anything else
becomes the framework's generic 500. -/
def escapeToFramework (e : Exc) : Response :=
  match e with
  | .cadEngine _ _ => cad_engine_exception_handler e
  | .other _ => .serverErr

/-! ## The binary endpoint: `convert_step_to_stl` (main.py lines 194-289)

The handler body transcribed over the oracles: persist the upload to a temp
path, validate (on `FileValidationError`: cleanup input, HTTP 400), derive the
output path via `with_suffix('.stl')`, convert (on `ConversionError`: cleanup
both, HTTP 422), schedule background cleanup and return the `FileResponse`;
`except HTTPException: raise` / `except Exception`: cleanup both, HTTP 500 with
a fixed generic detail. On a normal return the scheduled background task runs
after the response is sent and is included in the result. -/

def internalErr : Response := .httpErr 500 "Internal server error during conversion"

def convert_step_to_stl (cfg : Config) (env : Env) : RequestResult :=
  match env.persistCrash with
  | some (false, _e) =>
    -- NamedTemporaryFile creation itself failed: step_path is still None;
    -- except Exception: cleanup_files(None, None) does nothing.
    { files := [], trace := [], resp := internalErr }
  | some (true, _e) =>
    -- temp file exists, crash during file.read()/write; except Exception.
    let step := stepPathOf cfg env
    let r := cleanup_files [(step, [])] (some step) none
    { files := r.1, trace := Event.alloc step :: r.2, resp := internalErr }
  | none =>
    let step := stepPathOf cfg env
    let fs1 : FsState := [(step, env.content)]
    let tr1 := [Event.alloc step, Event.writeBytes step]
    match env.valOutcome with
    | .fve msg =>
      -- except FileValidationError: cleanup_files(step_path); HTTP 400 str(e)
      let r := cleanup_files fs1 (some step) none
      { files := r.1, trace := tr1 ++ Event.validate step false :: r.2,
        resp := .httpErr 400 msg }
    | .crash _e =>
      -- unexpected exception in validate_file; except Exception: cleanup both
      let r := cleanup_files fs1 (some step) none
      { files := r.1, trace := tr1 ++ Event.validate step false :: r.2,
        resp := internalErr }
    | .ok _ext _size =>
      let tr2 := tr1 ++ [Event.validate step true]
      let stl := withSuffix step ".stl"
      match env.convOutcome with
      | .ce msg outWritten =>
        -- except ConversionError: cleanup_files(step_path, stl_path); HTTP 422
        let fs2 := match outWritten with
          | some d => writeFs fs1 stl d
          | none => fs1
        let trc := match outWritten with
          | some _ => [Event.convert step stl, Event.alloc stl]
          | none => [Event.convert step stl]
        let r := cleanup_files fs2 (some step) (some stl)
        { files := r.1, trace := tr2 ++ trc ++ r.2,
          resp := .httpErr 422 ("Conversion failed: " ++ msg) }
      | .crash _e outWritten =>
        -- unexpected exception in convert; except Exception: cleanup both
        let fs2 := match outWritten with
          | some d => writeFs fs1 stl d
          | none => fs1
        let trc := match outWritten with
          | some _ => [Event.convert step stl, Event.alloc stl]
          | none => [Event.convert step stl]
        let r := cleanup_files fs2 (some step) (some stl)
        { files := r.1, trace := tr2 ++ trc ++ r.2, resp := internalErr }
      | .ok stl_out =>
        let fs2 := writeFs fs1 stl stl_out.data
        let tr3 := tr2 ++ [Event.convert step stl, Event.alloc stl]
        match env.respondCrash with
        | some _e =>
          -- crash while building the FileResponse (after add_task); the
          -- handler raised, so the scheduled background task never runs;
          -- except Exception: cleanup both.
          let r := cleanup_files fs2 (some step) (some stl)
          { files := r.1, trace := tr3 ++ r.2, resp := internalErr }
        | none =>
          let data := readFs fs2 stl
          let resp := Response.file data (pathStem env.filename ++ ".stl")
            [("X-Original-Filename", env.filename),
             ("X-Conversion-Engine", "OpenCascade"),
             ("X-File-Size", toString data.length),
             ("X-Mesh-Quality",
               "linear=" ++ cfg.linear_deflection ++ ",angular=" ++ cfg.angular_deflection)]
          -- background task after the response is sent: cleanup_files(step, stl)
          let r := cleanup_files fs2 (some step) (some stl)
          { files := r.1, trace := tr3 ++ r.2, resp := resp }

/-! ## The base64 endpoint: `convert_step_to_stl_base64` (main.py lines 292-368)

Same pipeline, but the response embeds the STL bytes base64-encoded in a JSON
body, cleanup runs in a `finally` block (so it also re-runs, as a no-op, after
the inner handlers already cleaned up), and there is no `except Exception`: an
unexpected exception propagates through the `finally` to the framework. -/

def b64charOf (n : Nat) : Char :=
  if n < 26 then Char.ofNat (65 + n)
  else if n < 52 then Char.ofNat (97 + (n - 26))
  else if n < 62 then Char.ofNat (48 + (n - 52))
  else if n = 62 then '+'
  else '/'

def b64indexOf (c : Char) : Nat :=
  if 65 ≤ c.toNat ∧ c.toNat ≤ 90 then c.toNat - 65
  else if 97 ≤ c.toNat ∧ c.toNat ≤ 122 then (c.toNat - 97) + 26
  else if 48 ≤ c.toNat ∧ c.toNat ≤ 57 then (c.toNat - 48) + 52
  else if c = '+' then 62
  else 63

/-- The 6-bit groups of a byte stream (RFC 4648 §4, as `base64.b64encode`
computes them; a final 8-bit quantum yields two groups, a 16-bit one three). -/
def sextets : List Nat → List Nat
  | a :: b :: c :: rest =>
    a / 4 :: ((a % 4) * 16 + b / 16) :: ((b % 16) * 4 + c / 64) :: c % 64 :: sextets rest
  | [a, b] => [a / 4, (a % 4) * 16 + b / 16, (b % 16) * 4]
  | [a] => [a / 4, (a % 4) * 16]
  | [] => []

/-- Reassemble bytes from 6-bit groups (the inverse direction of RFC 4648). -/
def desextets : List Nat → List Nat
  | w :: x :: y :: z :: rest =>
    (w * 4 + x / 16) :: ((x % 16) * 16 + y / 4) :: ((y % 4) * 64 + z) :: desextets rest
  | [w, x, y] => [w * 4 + x / 16, (x % 16) * 16 + y / 4]
  | [w, x] => [w * 4 + x / 16]
  | _ => []

/-- `base64.b64encode(data).decode('utf-8')`: alphabet characters for each
6-bit group, padded with `'='` to a multiple of four characters. -/
def b64encode (l : List Nat) : List Char :=
  (sextets l).map b64charOf ++ List.replicate ((4 - (sextets l).length % 4) % 4) '='

/-- Standard base64 decoding: drop padding, map the alphabet back to 6-bit
groups, reassemble bytes. -/
def b64decode (l : List Char) : List Nat :=
  desextets ((l.filter (fun c => c != '=')).map b64indexOf)

def convert_step_to_stl_base64 (cfg : Config) (env : Env) : RequestResult :=
  match env.persistCrash with
  | some (false, e) =>
    -- finally: cleanup_files(None, None); the exception propagates.
    { files := [], trace := [], resp := escapeToFramework e }
  | some (true, e) =>
    let step := stepPathOf cfg env
    -- finally: cleanup_files(step_path, None)
    let r := cleanup_files [(step, [])] (some step) none
    { files := r.1, trace := Event.alloc step :: r.2, resp := escapeToFramework e }
  | none =>
    let step := stepPathOf cfg env
    let fs1 : FsState := [(step, env.content)]
    let tr1 := [Event.alloc step, Event.writeBytes step]
    match env.valOutcome with
    | .fve msg =>
      -- except FileValidationError: cleanup_files(step_path); raise HTTP 400;
      -- finally: cleanup_files(step_path, None) — already gone, no-op.
      let r := cleanup_files fs1 (some step) none
      let r2 := cleanup_files r.1 (some step) none
      { files := r2.1, trace := tr1 ++ Event.validate step false :: (r.2 ++ r2.2),
        resp := .httpErr 400 msg }
    | .crash e =>
      -- unexpected exception in validate_file: only the finally runs
      -- (stl_path is still None), then the exception propagates.
      let r := cleanup_files fs1 (some step) none
      { files := r.1, trace := tr1 ++ Event.validate step false :: r.2,
        resp := escapeToFramework e }
    | .ok _ext _size =>
      let tr2 := tr1 ++ [Event.validate step true]
      let stl := withSuffix step ".stl"
      match env.convOutcome with
      | .ce msg outWritten =>
        -- except ConversionError: cleanup_files(step, stl); raise HTTP 422;
        -- finally: cleanup_files(step, stl) — no-op.
        let fs2 := match outWritten with
          | some d => writeFs fs1 stl d
          | none => fs1
        let trc := match outWritten with
          | some _ => [Event.convert step stl, Event.alloc stl]
          | none => [Event.convert step stl]
        let r := cleanup_files fs2 (some step) (some stl)
        let r2 := cleanup_files r.1 (some step) (some stl)
        { files := r2.1, trace := tr2 ++ trc ++ r.2 ++ r2.2,
          resp := .httpErr 422 ("Conversion failed: " ++ msg) }
      | .crash e outWritten =>
        -- unexpected exception in convert: only the finally runs, then the
        -- exception propagates to the framework.
        let fs2 := match outWritten with
          | some d => writeFs fs1 stl d
          | none => fs1
        let trc := match outWritten with
          | some _ => [Event.convert step stl, Event.alloc stl]
          | none => [Event.convert step stl]
        let r := cleanup_files fs2 (some step) (some stl)
        { files := r.1, trace := tr2 ++ trc ++ r.2, resp := escapeToFramework e }
      | .ok stl_out =>
        let fs2 := writeFs fs1 stl stl_out.data
        let tr3 := tr2 ++ [Event.convert step stl, Event.alloc stl]
        match env.respondCrash with
        | some e =>
          -- crash while reading the output file: finally, then propagate.
          let r := cleanup_files fs2 (some step) (some stl)
          { files := r.1, trace := tr3 ++ r.2, resp := escapeToFramework e }
        | none =>
          let stl_data := readFs fs2 stl
          let body : B64Body :=
            { success := true,
              original_filename := env.filename,
              stl_filename := pathStem env.filename ++ ".stl",
              stl_size := stl_data.length,
              stl_base64 := b64encode stl_data,
              mesh_quality := (cfg.linear_deflection, cfg.angular_deflection) }
          -- finally: cleanup_files(step, stl) before the dict is returned.
          let r := cleanup_files fs2 (some step) (some stl)
          { files := r.1, trace := tr3 ++ r.2, resp := .jsonOk body }

/-! ## Rate limiting wrapper

Modelled from the spec: the `@limiter.limit(f"{config.rate_limit_per_minute}/minute")`
decorators delegate to the external slowapi library; per spec §4.5 admission is
per-client-identity window counting with a requests-per-minute ceiling, and on
rejection the decorated handler body is not invoked at all — slowapi raises
`RateLimitExceeded`, mapped by `_rate_limit_exceeded_handler` to a 429. -/

structure LimiterState where
  counters : List (String × Nat × Nat)  -- (identity, window start, count)
deriving DecidableEq, Repr

/-- Admission check for one request from `ident` at time `now` (seconds):
fixed one-minute window per identity. Returns the updated state and whether
the request is admitted. -/
def allowRequest (limit : Nat) (st : LimiterState) (ident : String) (now : Nat) :
    LimiterState × Bool :=
  match st.counters.find? (fun e => e.1 == ident) with
  | some (_, ws, c) =>
    if now < ws + 60 then
      if c < limit then
        (⟨st.counters.map (fun e => if e.1 == ident then (ident, ws, c + 1) else e)⟩, true)
      else (st, false)
    else
      (⟨st.counters.map (fun e => if e.1 == ident then (ident, now, 1) else e)⟩, true)
  | none => (⟨(ident, now, 1) :: st.counters⟩, true)

/-- A decorated route: the limiter runs first; only if it admits the request is
the handler body invoked; otherwise the client gets the 429 response and the
body never runs (no events, no temp files). -/
def rateLimitedRoute (handler : Config → Env → RequestResult) (cfg : Config)
    (st : LimiterState) (ident : String) (now : Nat) (env : Env) :
    LimiterState × RequestResult :=
  match allowRequest cfg.rate_limit_per_minute st ident now with
  | (st2, true) => (st2, handler cfg env)
  | (st2, false) => (st2, { files := [], trace := [], resp := .rateLimited })

/-- The limiter state after `k` requests from `ident`, all at time `now`,
starting from a fresh limiter. -/
def serveSeq (handler : Config → Env → RequestResult) (cfg : Config)
    (ident : String) (now : Nat) (env : Env) : Nat → LimiterState
  | 0 => ⟨[]⟩
  | k + 1 => (rateLimitedRoute handler cfg (serveSeq handler cfg ident now env k) ident now env).1

/-! ## Trace observations -/

/-- Paths at which a temp file came into existence during the request. -/
def allocPaths (tr : List Event) : List FsPath :=
  tr.filterMap fun e => match e with | .alloc p => some p | _ => none

/-- Paths actually passed to `os.unlink` during the request. -/
def unlinkPaths (tr : List Event) : List FsPath :=
  tr.filterMap fun e => match e with | .unlink p => some p | _ => none

/-- Number of `conversion_service.convert` invocations in a trace. -/
def countConvert (tr : List Event) : Nat :=
  tr.countP fun e => match e with | .convert _ _ => true | _ => false

/-- Number of persisted-input writes in a trace. -/
def countWrites (tr : List Event) : Nat :=
  tr.countP fun e => match e with | .writeBytes _ => true | _ => false

/-- `true` iff every kernel invocation in the trace is on a path that an
earlier successful validation covered. -/
def kernelGated (validated : List FsPath) : List Event → Bool
  | [] => true
  | Event.validate p true :: rest => kernelGated (p :: validated) rest
  | Event.convert inp _ :: rest => validated.contains inp && kernelGated validated rest
  | _ :: rest => kernelGated validated rest

/-! ## Lemmas about `cleanup_files` at the states the handlers reach -/

theorem cleanup_files_nil (a b : Option FsPath) : cleanup_files [] a b = ([], []) := by
  rcases a with _ | p <;> rcases b with _ | q <;> simp [cleanup_files, cleanup1]

theorem cleanup_single (a : FsPath) (ca : List Nat) :
    cleanup_files [(a, ca)] (some a) none = ([], [Event.unlink a]) := by
  simp [cleanup_files, cleanup1]

theorem cleanup_single_pair (a b : FsPath) (ca : List Nat) :
    cleanup_files [(a, ca)] (some a) (some b) = ([], [Event.unlink a]) := by
  simp [cleanup_files, cleanup1]

theorem cleanup_pair (a b : FsPath) (ca db : List Nat) :
    cleanup_files (writeFs [(a, ca)] b db) (some a) (some b) =
      ([], if a = b then [Event.unlink a] else [Event.unlink a, Event.unlink b]) := by
  by_cases h : a = b
  · subst h
    simp [cleanup_files, cleanup1, writeFs]
  · have h2 : b ≠ a := fun hb => h hb.symm
    simp [cleanup_files, cleanup1, writeFs, h, h2]

/-! ## Per-request temp files never survive the request (helper lemmas) -/

theorem files_empty_binary (cfg : Config) (env : Env) :
    (convert_step_to_stl cfg env).files = [] := by
  obtain ⟨f, n, cont, pc, vo, co, rc⟩ := env
  rcases pc with _ | ⟨b, e⟩
  · rcases vo with ⟨ext, size⟩ | msg | e
    · rcases co with ⟨stl⟩ | ⟨msg, ow⟩ | ⟨e, ow⟩
      · rcases rc with _ | e <;>
          simp [convert_step_to_stl, cleanup_pair]
      · rcases ow with _ | d <;>
          simp [convert_step_to_stl, cleanup_pair, cleanup_single_pair]
      · rcases ow with _ | d <;>
          simp [convert_step_to_stl, cleanup_pair, cleanup_single_pair]
    · simp [convert_step_to_stl, cleanup_single]
    · simp [convert_step_to_stl, cleanup_single]
  · rcases b with _ | _ <;> simp [convert_step_to_stl, cleanup_single]

theorem files_empty_base64 (cfg : Config) (env : Env) :
    (convert_step_to_stl_base64 cfg env).files = [] := by
  obtain ⟨f, n, cont, pc, vo, co, rc⟩ := env
  rcases pc with _ | ⟨b, e⟩
  · rcases vo with ⟨ext, size⟩ | msg | e
    · rcases co with ⟨stl⟩ | ⟨msg, ow⟩ | ⟨e, ow⟩
      · rcases rc with _ | e <;>
          simp [convert_step_to_stl_base64, cleanup_pair]
      · rcases ow with _ | d <;>
          simp [convert_step_to_stl_base64, cleanup_pair, cleanup_single_pair,
            cleanup_files_nil]
      · rcases ow with _ | d <;>
          simp [convert_step_to_stl_base64, cleanup_pair, cleanup_single_pair]
    · simp [convert_step_to_stl_base64, cleanup_single, cleanup_files_nil]
    · simp [convert_step_to_stl_base64, cleanup_single]
  · rcases b with _ | _ <;> simp [convert_step_to_stl_base64, cleanup_single]

/-- A member of `[a, a]` occurs exactly once in `[a]`. -/
theorem count_pair_eq (a p : FsPath) (hp : p ∈ [a, a]) : [a].count p = 1 := by
  simp at hp
  subst hp
  simp

/-- A member of `[a, b]` with `a ≠ b` occurs exactly once in `[a, b]`. -/
theorem count_pair_ne (a b p : FsPath) (h : a ≠ b) (hp : p ∈ [a, b]) :
    [a, b].count p = 1 := by
  rcases List.mem_cons.mp hp with h1 | h1
  · subst h1
    simp [List.count_cons, beq_iff_eq, h, Ne.symm h]
  · simp at h1
    subst h1
    simp [List.count_cons, beq_iff_eq, h]

set_option maxRecDepth 8192 in
theorem alloc_unlink_once_binary (cfg : Config) (env : Env) :
    ∀ p ∈ allocPaths (convert_step_to_stl cfg env).trace,
      (unlinkPaths (convert_step_to_stl cfg env).trace).count p = 1 := by
  obtain ⟨f, n, cont, pc, vo, co, rc⟩ := env
  rcases pc with _ | ⟨b, e⟩
  · rcases vo with ⟨ext, size⟩ | msg | e
    · rcases co with ⟨stl⟩ | ⟨msg, ow⟩ | ⟨e, ow⟩
      · rcases rc with _ | e <;>
        · simp only [convert_step_to_stl, cleanup_pair]
          split
          · rename_i h
            simp only [← h, allocPaths, unlinkPaths, List.filterMap_append,
              List.filterMap_cons, List.filterMap_nil, List.nil_append,
              List.append_nil]
            exact fun p hp => count_pair_eq _ p hp
          · rename_i h
            simp only [allocPaths, unlinkPaths, List.filterMap_append,
              List.filterMap_cons, List.filterMap_nil, List.nil_append,
              List.append_nil]
            exact fun p hp => count_pair_ne _ _ p h hp
      · rcases ow with _ | d
        · simp [convert_step_to_stl, cleanup_single_pair, allocPaths, unlinkPaths]
        · simp only [convert_step_to_stl, cleanup_pair]
          split
          · rename_i h
            simp only [← h, allocPaths, unlinkPaths, List.filterMap_append,
              List.filterMap_cons, List.filterMap_nil, List.nil_append,
              List.append_nil]
            exact fun p hp => count_pair_eq _ p hp
          · rename_i h
            simp only [allocPaths, unlinkPaths, List.filterMap_append,
              List.filterMap_cons, List.filterMap_nil, List.nil_append,
              List.append_nil]
            exact fun p hp => count_pair_ne _ _ p h hp
      · rcases ow with _ | d
        · simp [convert_step_to_stl, cleanup_single_pair, allocPaths, unlinkPaths]
        · simp only [convert_step_to_stl, cleanup_pair]
          split
          · rename_i h
            simp only [← h, allocPaths, unlinkPaths, List.filterMap_append,
              List.filterMap_cons, List.filterMap_nil, List.nil_append,
              List.append_nil]
            exact fun p hp => count_pair_eq _ p hp
          · rename_i h
            simp only [allocPaths, unlinkPaths, List.filterMap_append,
              List.filterMap_cons, List.filterMap_nil, List.nil_append,
              List.append_nil]
            exact fun p hp => count_pair_ne _ _ p h hp
    · simp [convert_step_to_stl, cleanup_single, allocPaths, unlinkPaths]
    · simp [convert_step_to_stl, cleanup_single, allocPaths, unlinkPaths]
  · rcases b with _ | _ <;>
      simp [convert_step_to_stl, cleanup_single, allocPaths, unlinkPaths]

set_option maxRecDepth 8192 in
theorem alloc_unlink_once_base64 (cfg : Config) (env : Env) :
    ∀ p ∈ allocPaths (convert_step_to_stl_base64 cfg env).trace,
      (unlinkPaths (convert_step_to_stl_base64 cfg env).trace).count p = 1 := by
  obtain ⟨f, n, cont, pc, vo, co, rc⟩ := env
  rcases pc with _ | ⟨b, e⟩
  · rcases vo with ⟨ext, size⟩ | msg | e
    · rcases co with ⟨stl⟩ | ⟨msg, ow⟩ | ⟨e, ow⟩
      · rcases rc with _ | e <;>
        · simp only [convert_step_to_stl_base64, cleanup_pair]
          split
          · rename_i h
            simp only [← h, allocPaths, unlinkPaths, List.filterMap_append,
              List.filterMap_cons, List.filterMap_nil, List.nil_append,
              List.append_nil]
            exact fun p hp => count_pair_eq _ p hp
          · rename_i h
            simp only [allocPaths, unlinkPaths, List.filterMap_append,
              List.filterMap_cons, List.filterMap_nil, List.nil_append,
              List.append_nil]
            exact fun p hp => count_pair_ne _ _ p h hp
      · rcases ow with _ | d
        · simp [convert_step_to_stl_base64, cleanup_single_pair, cleanup_files_nil,
            allocPaths, unlinkPaths]
        · simp only [convert_step_to_stl_base64, cleanup_pair]
          split
          · rename_i h
            simp only [← h, allocPaths, unlinkPaths, cleanup_files_nil,
              List.filterMap_append, List.filterMap_cons, List.filterMap_nil,
              List.nil_append, List.append_nil]
            exact fun p hp => count_pair_eq _ p hp
          · rename_i h
            simp only [allocPaths, unlinkPaths, cleanup_files_nil,
              List.filterMap_append, List.filterMap_cons, List.filterMap_nil,
              List.nil_append, List.append_nil]
            exact fun p hp => count_pair_ne _ _ p h hp
      · rcases ow with _ | d
        · simp [convert_step_to_stl_base64, cleanup_single_pair, allocPaths, unlinkPaths]
        · simp only [convert_step_to_stl_base64, cleanup_pair]
          split
          · rename_i h
            simp only [← h, allocPaths, unlinkPaths, List.filterMap_append,
              List.filterMap_cons, List.filterMap_nil, List.nil_append,
              List.append_nil]
            exact fun p hp => count_pair_eq _ p hp
          · rename_i h
            simp only [allocPaths, unlinkPaths, List.filterMap_append,
              List.filterMap_cons, List.filterMap_nil, List.nil_append,
              List.append_nil]
            exact fun p hp => count_pair_ne _ _ p h hp
    · simp [convert_step_to_stl_base64, cleanup_single, cleanup_files_nil,
        allocPaths, unlinkPaths]
    · simp [convert_step_to_stl_base64, cleanup_single, allocPaths, unlinkPaths]
  · rcases b with _ | _ <;>
      simp [convert_step_to_stl_base64, cleanup_single, allocPaths, unlinkPaths]

/-! ## Kernel gating: validation precedes every kernel call (helper lemmas) -/

set_option maxRecDepth 8192 in
theorem kernel_gating_binary (cfg : Config) (env : Env) :
    kernelGated [] (convert_step_to_stl cfg env).trace = true ∧
    countConvert (convert_step_to_stl cfg env).trace ≤ 1 ∧
    countWrites (convert_step_to_stl cfg env).trace ≤ 1 := by
  obtain ⟨f, n, cont, pc, vo, co, rc⟩ := env
  rcases pc with _ | ⟨b, e⟩
  · rcases vo with ⟨ext, size⟩ | msg | e
    · rcases co with ⟨stl⟩ | ⟨msg, ow⟩ | ⟨e, ow⟩
      · rcases rc with _ | e <;>
        · simp only [convert_step_to_stl, cleanup_pair]
          split <;>
            simp [kernelGated, countConvert, countWrites, List.countP_cons]
      · rcases ow with _ | d
        · simp [convert_step_to_stl, cleanup_single_pair, kernelGated, countConvert,
            countWrites, List.countP_cons]
        · simp only [convert_step_to_stl, cleanup_pair]
          split <;>
            simp [kernelGated, countConvert, countWrites, List.countP_cons]
      · rcases ow with _ | d
        · simp [convert_step_to_stl, cleanup_single_pair, kernelGated, countConvert,
            countWrites, List.countP_cons]
        · simp only [convert_step_to_stl, cleanup_pair]
          split <;>
            simp [kernelGated, countConvert, countWrites, List.countP_cons]
    · simp [convert_step_to_stl, cleanup_single, kernelGated, countConvert,
        countWrites, List.countP_cons]
    · simp [convert_step_to_stl, cleanup_single, kernelGated, countConvert,
        countWrites, List.countP_cons]
  · rcases b with _ | _ <;>
      simp [convert_step_to_stl, cleanup_single, kernelGated, countConvert,
        countWrites, List.countP_cons]

set_option maxRecDepth 8192 in
theorem kernel_gating_base64 (cfg : Config) (env : Env) :
    kernelGated [] (convert_step_to_stl_base64 cfg env).trace = true ∧
    countConvert (convert_step_to_stl_base64 cfg env).trace ≤ 1 ∧
    countWrites (convert_step_to_stl_base64 cfg env).trace ≤ 1 := by
  obtain ⟨f, n, cont, pc, vo, co, rc⟩ := env
  rcases pc with _ | ⟨b, e⟩
  · rcases vo with ⟨ext, size⟩ | msg | e
    · rcases co with ⟨stl⟩ | ⟨msg, ow⟩ | ⟨e, ow⟩
      · rcases rc with _ | e <;>
        · simp only [convert_step_to_stl_base64, cleanup_pair, cleanup_files_nil]
          split <;>
            simp [kernelGated, countConvert, countWrites, List.countP_cons]
      · rcases ow with _ | d
        · simp [convert_step_to_stl_base64, cleanup_single_pair, cleanup_files_nil,
            kernelGated, countConvert, countWrites, List.countP_cons]
        · simp only [convert_step_to_stl_base64, cleanup_pair, cleanup_files_nil]
          split <;>
            simp [kernelGated, countConvert, countWrites, List.countP_cons]
      · rcases ow with _ | d
        · simp [convert_step_to_stl_base64, cleanup_single_pair, kernelGated,
            countConvert, countWrites, List.countP_cons]
        · simp only [convert_step_to_stl_base64, cleanup_pair]
          split <;>
            simp [kernelGated, countConvert, countWrites, List.countP_cons]
    · simp [convert_step_to_stl_base64, cleanup_single, cleanup_files_nil, kernelGated,
        countConvert, countWrites, List.countP_cons]
    · simp [convert_step_to_stl_base64, cleanup_single, kernelGated, countConvert,
        countWrites, List.countP_cons]
  · rcases b with _ | _ <;>
      simp [convert_step_to_stl_base64, cleanup_single, kernelGated, countConvert,
        countWrites, List.countP_cons]

/-! ## Correctness of the base64 model -/

theorem sextets_lt : ∀ (l : List Nat), (∀ b ∈ l, b < 256) → ∀ s ∈ sextets l, s < 64
  | [], _ => by intro s hs; simp [sextets] at hs
  | [a], h => by
    intro s hs
    have ha : a < 256 := h a (by simp)
    simp [sextets] at hs
    rcases hs with h1 | h1 <;> omega
  | [a, b], h => by
    intro s hs
    have ha : a < 256 := h a (by simp)
    have hb : b < 256 := h b (by simp)
    simp [sextets] at hs
    rcases hs with h1 | h1 | h1 <;> omega
  | a :: b :: c :: rest, h => by
    intro s hs
    have ha : a < 256 := h a (by simp)
    have hb : b < 256 := h b (by simp)
    have hc : c < 256 := h c (by simp)
    simp only [sextets, List.mem_cons] at hs
    rcases hs with h1 | h1 | h1 | h1 | h1
    · omega
    · omega
    · omega
    · omega
    · exact sextets_lt rest (fun x hx => h x (by simp [hx])) s h1

theorem desextets_sextets : ∀ (l : List Nat), (∀ b ∈ l, b < 256) → desextets (sextets l) = l
  | [], _ => by simp [sextets, desextets]
  | [a], h => by
    have ha : a < 256 := h a (by simp)
    simp [sextets, desextets]
    omega
  | [a, b], h => by
    have ha : a < 256 := h a (by simp)
    have hb : b < 256 := h b (by simp)
    simp [sextets, desextets]
    constructor <;> omega
  | a :: b :: c :: rest, h => by
    have ha : a < 256 := h a (by simp)
    have hb : b < 256 := h b (by simp)
    have hc : c < 256 := h c (by simp)
    have ih := desextets_sextets rest (fun x hx => h x (by simp [hx]))
    simp [sextets, desextets, ih]
    refine ⟨?_, ?_, ?_⟩ <;> omega

theorem b64indexOf_b64charOf : ∀ n < 64, b64indexOf (b64charOf n) = n := by decide

theorem b64charOf_ne_pad : ∀ n < 64, b64charOf n ≠ '=' := by decide

/-- Round trip: standard base64 decoding recovers exactly the encoded bytes. -/
theorem b64decode_b64encode (l : List Nat) (h : ∀ b ∈ l, b < 256) :
    b64decode (b64encode l) = l := by
  unfold b64decode b64encode
  rw [List.filter_append]
  have h1 : (List.map b64charOf (sextets l)).filter (fun c => c != '=') =
      List.map b64charOf (sextets l) := by
    rw [List.filter_eq_self]
    intro c hc
    simp only [List.mem_map] at hc
    obtain ⟨s, hs, rfl⟩ := hc
    simpa using b64charOf_ne_pad s (sextets_lt l h s hs)
  have h2 : (List.replicate ((4 - (sextets l).length % 4) % 4) '=').filter
      (fun c => c != '=') = [] := by
    rw [List.filter_eq_nil_iff]
    intro a ha
    simp at ha
    simp [ha.2]
  rw [h1, h2, List.append_nil, List.map_map]
  have h3 : (sextets l).map (b64indexOf ∘ b64charOf) = (sextets l).map id :=
    List.map_congr_left fun s hs => b64indexOf_b64charOf s (sextets_lt l h s hs)
  rw [h3, List.map_id]
  exact desextets_sextets l h

/-! ## Rate limiter behaviour (helper lemmas) -/

theorem allowRequest_fresh (limit : Nat) (ident : String) (now : Nat) :
    allowRequest limit ⟨[]⟩ ident now = (⟨[(ident, now, 1)]⟩, true) := by
  simp [allowRequest]

theorem allowRequest_under (limit : Nat) (ident : String) (now k : Nat) (hk : k < limit) :
    allowRequest limit ⟨[(ident, now, k)]⟩ ident now = (⟨[(ident, now, k + 1)]⟩, true) := by
  simp [allowRequest, hk]

theorem allowRequest_at_limit (limit : Nat) (ident : String) (now : Nat) :
    allowRequest limit ⟨[(ident, now, limit)]⟩ ident now =
      (⟨[(ident, now, limit)]⟩, false) := by
  simp [allowRequest]

/-- After `k` admitted requests (`1 ≤ k ≤ limit`) from one identity inside one
window, the limiter counter for that identity reads `k`. -/
theorem serveSeq_counter (handler : Config → Env → RequestResult) (cfg : Config)
    (ident : String) (now : Nat) (env : Env) :
    ∀ k, 1 ≤ k → k ≤ cfg.rate_limit_per_minute →
      serveSeq handler cfg ident now env k = ⟨[(ident, now, k)]⟩ := by
  intro k
  induction k with
  | zero => omega
  | succ k ih =>
    intro _ h2
    by_cases hk : k = 0
    · subst hk
      simp [serveSeq, rateLimitedRoute, allowRequest_fresh]
    · have ihk := ih (by omega) (by omega)
      have hklt : k < cfg.rate_limit_per_minute := by omega
      simp [serveSeq, ihk, rateLimitedRoute, allowRequest_under _ _ _ _ hklt]

/-! ## Concrete instances used by the witness theorems -/

def cfgW : Config := ⟨"/tmp/cad", "0.1", "0.5", 2⟩

def stlW : BinaryStl :=
  ⟨List.replicate 84 65, by simp, by simp⟩

def envW : Env := ⟨"model.step", 7, [1, 2, 3], none, .ok ".step" 3, .ok stlW, none⟩

/-! ## Claims -/

/-- C1: for every conversion request on either endpoint, every temp path
allocated during the request (the persisted input path and, once it exists, the
output STL path) is deleted exactly once by the time the request's lifecycle
ends (the binary endpoint's post-response background cleanup included), on
every exit path — normal success, validation rejection, conversion failure, and
unhandled exception — and no temp file of the request survives. -/
theorem c1_temp_files_deleted_exactly_once (cfg : Config) (env : Env) :
    ((convert_step_to_stl cfg env).files = [] ∧
      ∀ p ∈ allocPaths (convert_step_to_stl cfg env).trace,
        (unlinkPaths (convert_step_to_stl cfg env).trace).count p = 1) ∧
    ((convert_step_to_stl_base64 cfg env).files = [] ∧
      ∀ p ∈ allocPaths (convert_step_to_stl_base64 cfg env).trace,
        (unlinkPaths (convert_step_to_stl_base64 cfg env).trace).count p = 1) :=
  ⟨⟨files_empty_binary cfg env, alloc_unlink_once_binary cfg env⟩,
   ⟨files_empty_base64 cfg env, alloc_unlink_once_base64 cfg env⟩⟩

theorem c1_temp_files_deleted_exactly_once_witness :
    stepPathOf cfgW envW ∈ allocPaths (convert_step_to_stl cfgW envW).trace ∧
    (unlinkPaths (convert_step_to_stl cfgW envW).trace).count (stepPathOf cfgW envW) = 1 :=
  ⟨by decide,
   (c1_temp_files_deleted_exactly_once cfgW envW).1.2 (stepPathOf cfgW envW) (by decide)⟩

/-- C2: on every request to either endpoint, the conversion kernel is invoked
only after `validate_file` succeeded on the persisted input path (so never on
unvalidated bytes), it is invoked at most once per request, and at most one
persisted-input write occurs. -/
theorem c2_kernel_after_validation_at_most_once (cfg : Config) (env : Env) :
    (kernelGated [] (convert_step_to_stl cfg env).trace = true ∧
     countConvert (convert_step_to_stl cfg env).trace ≤ 1 ∧
     countWrites (convert_step_to_stl cfg env).trace ≤ 1) ∧
    (kernelGated [] (convert_step_to_stl_base64 cfg env).trace = true ∧
     countConvert (convert_step_to_stl_base64 cfg env).trace ≤ 1 ∧
     countWrites (convert_step_to_stl_base64 cfg env).trace ≤ 1) :=
  ⟨kernel_gating_binary cfg env, kernel_gating_base64 cfg env⟩

/-- C4: once a client identity has used up the configured per-minute limit,
the next request inside the same window is rejected: the handler body is never
invoked (empty trace — no temp file written, no validation, no kernel call, no
files), and the client gets the distinct 429 response. -/
theorem c4_rate_limited_request_no_side_effects (cfg : Config) (ident : String)
    (now : Nat) (env : Env) (h : 0 < cfg.rate_limit_per_minute) :
    (rateLimitedRoute convert_step_to_stl cfg
        (serveSeq convert_step_to_stl cfg ident now env cfg.rate_limit_per_minute)
        ident now env).2 = ⟨[], [], .rateLimited⟩ ∧
    (rateLimitedRoute convert_step_to_stl_base64 cfg
        (serveSeq convert_step_to_stl_base64 cfg ident now env cfg.rate_limit_per_minute)
        ident now env).2 = ⟨[], [], .rateLimited⟩ ∧
    statusOf Response.rateLimited = 429 ∧
    statusOf Response.rateLimited ≠ 400 ∧ statusOf Response.rateLimited ≠ 422 := by
  have h1 := serveSeq_counter convert_step_to_stl cfg ident now env
    cfg.rate_limit_per_minute h le_rfl
  have h2 := serveSeq_counter convert_step_to_stl_base64 cfg ident now env
    cfg.rate_limit_per_minute h le_rfl
  refine ⟨?_, ?_, rfl, by decide, by decide⟩
  · rw [h1]
    simp [rateLimitedRoute, allowRequest_at_limit]
  · rw [h2]
    simp [rateLimitedRoute, allowRequest_at_limit]

theorem c4_rate_limited_request_no_side_effects_witness :
    0 < cfgW.rate_limit_per_minute ∧
    ((rateLimitedRoute convert_step_to_stl cfgW
        (serveSeq convert_step_to_stl cfgW "1.2.3.4" 0 envW cfgW.rate_limit_per_minute)
        "1.2.3.4" 0 envW).2 = ⟨[], [], .rateLimited⟩ ∧
     (rateLimitedRoute convert_step_to_stl_base64 cfgW
        (serveSeq convert_step_to_stl_base64 cfgW "1.2.3.4" 0 envW cfgW.rate_limit_per_minute)
        "1.2.3.4" 0 envW).2 = ⟨[], [], .rateLimited⟩ ∧
     statusOf Response.rateLimited = 429 ∧
     statusOf Response.rateLimited ≠ 400 ∧ statusOf Response.rateLimited ≠ 422) :=
  ⟨by decide, c4_rate_limited_request_no_side_effects cfgW "1.2.3.4" 0 envW (by decide)⟩

def envV : Env := { envW with valOutcome := .fve "File too large" }

def envC : Env := { envW with convOutcome := .ce "bad geometry" none }

/-- C5: when `validate_file` raises `FileValidationError`, on either endpoint
the persisted input path is deleted, the client gets a 400 response carrying
the validation message, and the request's trace is exactly
persist-validate-unlink: the kernel is never invoked and no output path is
ever allocated. -/
theorem c5_validation_failure_400_no_kernel (cfg : Config) (env : Env)
    (msg : String) (hpc : env.persistCrash = none) (hv : env.valOutcome = .fve msg) :
    ((convert_step_to_stl cfg env).resp = .httpErr 400 msg ∧
     (convert_step_to_stl cfg env).files = [] ∧
     (convert_step_to_stl cfg env).trace =
       [.alloc (stepPathOf cfg env), .writeBytes (stepPathOf cfg env),
        .validate (stepPathOf cfg env) false, .unlink (stepPathOf cfg env)]) ∧
    ((convert_step_to_stl_base64 cfg env).resp = .httpErr 400 msg ∧
     (convert_step_to_stl_base64 cfg env).files = [] ∧
     (convert_step_to_stl_base64 cfg env).trace =
       [.alloc (stepPathOf cfg env), .writeBytes (stepPathOf cfg env),
        .validate (stepPathOf cfg env) false, .unlink (stepPathOf cfg env)]) ∧
    statusOf (.httpErr 400 msg) = 400 := by
  obtain ⟨f, n, cont, pc, vo, co, rc⟩ := env
  simp only at hpc hv
  subst hpc
  subst hv
  simp [convert_step_to_stl, convert_step_to_stl_base64, cleanup_single,
    cleanup_files_nil, statusOf]

theorem c5_validation_failure_400_no_kernel_witness :
    envV.persistCrash = none ∧ envV.valOutcome = .fve "File too large" ∧
    (((convert_step_to_stl cfgW envV).resp = .httpErr 400 "File too large" ∧
      (convert_step_to_stl cfgW envV).files = [] ∧
      (convert_step_to_stl cfgW envV).trace =
        [.alloc (stepPathOf cfgW envV), .writeBytes (stepPathOf cfgW envV),
         .validate (stepPathOf cfgW envV) false, .unlink (stepPathOf cfgW envV)]) ∧
     ((convert_step_to_stl_base64 cfgW envV).resp = .httpErr 400 "File too large" ∧
      (convert_step_to_stl_base64 cfgW envV).files = [] ∧
      (convert_step_to_stl_base64 cfgW envV).trace =
        [.alloc (stepPathOf cfgW envV), .writeBytes (stepPathOf cfgW envV),
         .validate (stepPathOf cfgW envV) false, .unlink (stepPathOf cfgW envV)]) ∧
     statusOf (.httpErr 400 "File too large") = 400) :=
  ⟨rfl, rfl, c5_validation_failure_400_no_kernel cfgW envV "File too large" rfl rfl⟩

/-- C6: when `conversion_service.convert` raises `ConversionError`, on either
endpoint the input path and the (possibly partially written) output path are
both released — the request ends with no surviving temp file, the input is
unlinked, and so is the output whenever the failed call had written it — and
the client receives 422 with a detail prefixed "Conversion failed: ",
distinguishable from the validation status 400. -/
theorem c6_conversion_error_422_paths_released (cfg : Config) (env : Env)
    (msg : String) (ow : Option (List Nat)) (ext : String) (size : Nat)
    (hpc : env.persistCrash = none) (hv : env.valOutcome = .ok ext size)
    (hc : env.convOutcome = .ce msg ow) :
    ((convert_step_to_stl cfg env).resp = .httpErr 422 ("Conversion failed: " ++ msg) ∧
     (convert_step_to_stl cfg env).files = [] ∧
     Event.unlink (stepPathOf cfg env) ∈ (convert_step_to_stl cfg env).trace ∧
     (∀ d, ow = some d →
       Event.unlink (stlPathOf cfg env) ∈ (convert_step_to_stl cfg env).trace)) ∧
    ((convert_step_to_stl_base64 cfg env).resp =
        .httpErr 422 ("Conversion failed: " ++ msg) ∧
     (convert_step_to_stl_base64 cfg env).files = [] ∧
     Event.unlink (stepPathOf cfg env) ∈ (convert_step_to_stl_base64 cfg env).trace ∧
     (∀ d, ow = some d →
       Event.unlink (stlPathOf cfg env) ∈ (convert_step_to_stl_base64 cfg env).trace)) ∧
    statusOf (.httpErr 422 ("Conversion failed: " ++ msg)) = 422 ∧
    statusOf (.httpErr 422 ("Conversion failed: " ++ msg)) ≠ 400 := by
  obtain ⟨f, n, cont, pc, vo, co, rc⟩ := env
  simp only at hpc hv hc
  subst hpc
  subst hv
  subst hc
  rcases ow with _ | d
  · simp [convert_step_to_stl, convert_step_to_stl_base64, cleanup_single_pair,
      cleanup_files_nil, statusOf, stlPathOf]
  · refine ⟨⟨rfl, ?_, ?_, ?_⟩, ⟨rfl, ?_, ?_, ?_⟩, rfl, by simp [statusOf]⟩
    · simp [convert_step_to_stl, cleanup_pair]
    · simp only [convert_step_to_stl, cleanup_pair]
      split <;> simp
    · intro d2 _
      simp only [stlPathOf, convert_step_to_stl, cleanup_pair]
      split
      · rename_i h
        rw [← h]
        simp
      · simp
    · simp [convert_step_to_stl_base64, cleanup_pair, cleanup_files_nil]
    · simp only [convert_step_to_stl_base64, cleanup_pair, cleanup_files_nil]
      split <;> simp
    · intro d2 _
      simp only [stlPathOf, convert_step_to_stl_base64, cleanup_pair, cleanup_files_nil]
      split
      · rename_i h
        rw [← h]
        simp
      · simp

theorem c6_conversion_error_422_paths_released_witness :
    envC.persistCrash = none ∧ envC.valOutcome = .ok ".step" 3 ∧
    envC.convOutcome = .ce "bad geometry" none ∧
    (((convert_step_to_stl cfgW envC).resp =
        .httpErr 422 ("Conversion failed: " ++ "bad geometry") ∧
      (convert_step_to_stl cfgW envC).files = [] ∧
      Event.unlink (stepPathOf cfgW envC) ∈ (convert_step_to_stl cfgW envC).trace ∧
      (∀ d, (none : Option (List Nat)) = some d →
        Event.unlink (stlPathOf cfgW envC) ∈ (convert_step_to_stl cfgW envC).trace)) ∧
     ((convert_step_to_stl_base64 cfgW envC).resp =
        .httpErr 422 ("Conversion failed: " ++ "bad geometry") ∧
      (convert_step_to_stl_base64 cfgW envC).files = [] ∧
      Event.unlink (stepPathOf cfgW envC) ∈ (convert_step_to_stl_base64 cfgW envC).trace ∧
      (∀ d, (none : Option (List Nat)) = some d →
        Event.unlink (stlPathOf cfgW envC) ∈ (convert_step_to_stl_base64 cfgW envC).trace)) ∧
     statusOf (.httpErr 422 ("Conversion failed: " ++ "bad geometry")) = 422 ∧
     statusOf (.httpErr 422 ("Conversion failed: " ++ "bad geometry")) ≠ 400) :=
  ⟨rfl, rfl, rfl,
   c6_conversion_error_422_paths_released cfgW envC "bad geometry" none ".step" 3 rfl rfl rfl⟩

/-! ## C3: unexpected exceptions -/

/-- The request hits the unexpected (neither `FileValidationError` nor
`ConversionError`) exception `e` at one of the handler's stages. -/
def crashesWith (env : Env) (e : Exc) : Prop :=
  (∃ b, env.persistCrash = some (b, e)) ∨
  (env.persistCrash = none ∧ env.valOutcome = .crash e) ∨
  (env.persistCrash = none ∧ (∃ ext size, env.valOutcome = .ok ext size) ∧
    ∃ ow, env.convOutcome = .crash e ow) ∨
  (env.persistCrash = none ∧ (∃ ext size, env.valOutcome = .ok ext size) ∧
    (∃ stl, env.convOutcome = .ok stl) ∧ env.respondCrash = some e)

/-- The environment of the C3 counterexample: a valid upload whose kernel call
dies with an unexpected `CADEngineException` subclass. -/
def envX : Env :=
  { envW with convOutcome :=
      ConvOutcome.crash (Exc.cadEngine "MeshQualityError" "tessellation budget exceeded") none }

/-- C3 as stated is false: on the base64 endpoint an uncaught exception that is
a `CADEngineException` (but neither `FileValidationError` nor
`ConversionError`) produces a 422 response whose body echoes the internal error
detail — not a 500-class response with a generic message. -/
theorem c3_counterexample :
    (convert_step_to_stl_base64 cfgW envX).resp =
      .cadErr "tessellation budget exceeded" "MeshQualityError" ∧
    statusOf (convert_step_to_stl_base64 cfgW envX).resp = 422 ∧
    ¬ 500 ≤ statusOf (convert_step_to_stl_base64 cfgW envX).resp := by
  decide

/-- C3 amended: whenever an uncaught unexpected exception (neither
`FileValidationError` nor `ConversionError`) occurs at any stage, all temp
paths of the request are released on both endpoints; the binary endpoint
returns 500 with a fixed generic detail; the base64 endpoint returns the
framework's generic 500 when the exception is not a `CADEngineException`,
while an escaping `CADEngineException` is instead mapped by the registered
handler to a 422 response echoing the exception detail. -/
theorem c3_amended_unexpected_exception_handling (cfg : Config) (env : Env)
    (e : Exc) (h : crashesWith env e) :
    (convert_step_to_stl cfg env).files = [] ∧
    (convert_step_to_stl cfg env).resp =
      .httpErr 500 "Internal server error during conversion" ∧
    (convert_step_to_stl_base64 cfg env).files = [] ∧
    (convert_step_to_stl_base64 cfg env).resp = escapeToFramework e ∧
    (∀ m, e = .other m →
      escapeToFramework e = .serverErr ∧ statusOf Response.serverErr = 500) ∧
    (∀ t m, e = .cadEngine t m →
      escapeToFramework e = .cadErr m t ∧ statusOf (.cadErr m t) = 422) := by
  refine ⟨files_empty_binary cfg env, ?_, files_empty_base64 cfg env, ?_,
    ?_, ?_⟩
  · obtain ⟨f, n, cont, pc, vo, co, rc⟩ := env
    rcases h with ⟨b, hb⟩ | ⟨hpc, hv⟩ | ⟨hpc, ⟨ext, size, hv⟩, ⟨ow, hc⟩⟩ |
      ⟨hpc, ⟨ext, size, hv⟩, ⟨stl, hc⟩, hr⟩
    · simp only at hb
      subst hb
      rcases b with _ | _ <;> simp [convert_step_to_stl, internalErr]
    · simp only at hpc hv
      subst hpc
      subst hv
      simp [convert_step_to_stl, internalErr]
    · simp only at hpc hv hc
      subst hpc
      subst hv
      subst hc
      rcases ow with _ | d <;> simp [convert_step_to_stl, internalErr]
    · simp only at hpc hv hc hr
      subst hpc
      subst hv
      subst hc
      subst hr
      simp [convert_step_to_stl, internalErr]
  · obtain ⟨f, n, cont, pc, vo, co, rc⟩ := env
    rcases h with ⟨b, hb⟩ | ⟨hpc, hv⟩ | ⟨hpc, ⟨ext, size, hv⟩, ⟨ow, hc⟩⟩ |
      ⟨hpc, ⟨ext, size, hv⟩, ⟨stl, hc⟩, hr⟩
    · simp only at hb
      subst hb
      rcases b with _ | _ <;> simp [convert_step_to_stl_base64]
    · simp only at hpc hv
      subst hpc
      subst hv
      simp [convert_step_to_stl_base64]
    · simp only at hpc hv hc
      subst hpc
      subst hv
      subst hc
      rcases ow with _ | d <;> simp [convert_step_to_stl_base64]
    · simp only at hpc hv hc hr
      subst hpc
      subst hv
      subst hc
      subst hr
      simp [convert_step_to_stl_base64]
  · rintro m rfl
    exact ⟨rfl, rfl⟩
  · rintro t m rfl
    exact ⟨rfl, rfl⟩

theorem c3_amended_unexpected_exception_handling_witness :
    crashesWith envX (.cadEngine "MeshQualityError" "tessellation budget exceeded") ∧
    ((convert_step_to_stl cfgW envX).files = [] ∧
     (convert_step_to_stl cfgW envX).resp =
       .httpErr 500 "Internal server error during conversion" ∧
     (convert_step_to_stl_base64 cfgW envX).files = [] ∧
     (convert_step_to_stl_base64 cfgW envX).resp =
       escapeToFramework (.cadEngine "MeshQualityError" "tessellation budget exceeded") ∧
     (∀ m, (Exc.cadEngine "MeshQualityError" "tessellation budget exceeded") = .other m →
       escapeToFramework (.cadEngine "MeshQualityError" "tessellation budget exceeded") =
         .serverErr ∧ statusOf Response.serverErr = 500) ∧
     (∀ t m, (Exc.cadEngine "MeshQualityError" "tessellation budget exceeded") =
         .cadEngine t m →
       escapeToFramework (.cadEngine "MeshQualityError" "tessellation budget exceeded") =
         .cadErr m t ∧ statusOf (.cadErr m t) = 422)) :=
  ⟨Or.inr (Or.inr (Or.inl ⟨rfl, ⟨".step", 3, rfl⟩, ⟨none, rfl⟩⟩)),
   c3_amended_unexpected_exception_handling cfgW envX
     (.cadEngine "MeshQualityError" "tessellation budget exceeded")
     (Or.inr (Or.inr (Or.inl ⟨rfl, ⟨".step", 3, rfl⟩, ⟨none, rfl⟩⟩)))⟩

/-- C10: a `CADEngineException` that escapes an endpoint handler (here: an
unexpected `CADEngineException` subclass raised by the kernel call on the
base64 endpoint, whose handler has no catch-all) is mapped by the registered
`cad_engine_exception_handler` to a 422 JSON response echoing the exception's
message and class name to the client — not a generic 500. -/
theorem c10_cad_exception_handler_echoes_detail (cfg : Config) (env : Env)
    (t m : String) (ow : Option (List Nat)) (ext : String) (size : Nat)
    (hpc : env.persistCrash = none) (hv : env.valOutcome = .ok ext size)
    (hc : env.convOutcome = .crash (.cadEngine t m) ow) :
    cad_engine_exception_handler (.cadEngine t m) = .cadErr m t ∧
    statusOf (.cadErr m t) = 422 ∧
    (convert_step_to_stl_base64 cfg env).resp = .cadErr m t ∧
    statusOf (convert_step_to_stl_base64 cfg env).resp ≠ 500 := by
  obtain ⟨f, n, cont, pc, vo, co, rc⟩ := env
  simp only at hpc hv hc
  subst hpc
  subst hv
  subst hc
  rcases ow with _ | d <;>
    simp [convert_step_to_stl_base64, escapeToFramework,
      cad_engine_exception_handler, statusOf]

theorem c10_cad_exception_handler_echoes_detail_witness :
    envX.persistCrash = none ∧ envX.valOutcome = .ok ".step" 3 ∧
    envX.convOutcome =
      .crash (.cadEngine "MeshQualityError" "tessellation budget exceeded") none ∧
    (cad_engine_exception_handler
        (.cadEngine "MeshQualityError" "tessellation budget exceeded") =
      .cadErr "tessellation budget exceeded" "MeshQualityError" ∧
     statusOf (.cadErr "tessellation budget exceeded" "MeshQualityError") = 422 ∧
     (convert_step_to_stl_base64 cfgW envX).resp =
       .cadErr "tessellation budget exceeded" "MeshQualityError" ∧
     statusOf (convert_step_to_stl_base64 cfgW envX).resp ≠ 500) :=
  ⟨rfl, rfl, rfl,
   c10_cad_exception_handler_echoes_detail cfgW envX
     "MeshQualityError" "tessellation budget exceeded" none ".step" 3 rfl rfl rfl⟩

/-! ## C7: path distinctness -/

/-- The environment of the C7 counterexample: an upload named `model.stl`
accepted by validation. -/
def envStl : Env := { envW with filename := "model.stl", valOutcome := .ok ".stl" 3 }

/-- C7 as stated is false: for an uploaded filename whose (lowercased) final
extension is `.stl`, `with_suffix('.stl')` returns the input path itself, so
the output path the request derives equals the input path — and the handler
really does invoke the kernel with both arguments equal to that single path. -/
theorem c7_counterexample_stl_extension :
    stlPathOf cfgW envStl = stepPathOf cfgW envStl ∧
    Event.convert (stepPathOf cfgW envStl) (stepPathOf cfgW envStl) ∈
      (convert_step_to_stl cfgW envStl).trace := by
  decide

/-- C7 amended: temp paths of two concurrent requests (distinct `tempfile`
allocations, hence distinct nonces) are pairwise distinct — input against
input, input against output, output against output; and within one request the
output path differs from the input path for every declared upload filename
whose lowercased final extension is not `.stl`. (When it is `.stl` and
validation accepts the file, the derived output path coincides with the input
path.) -/
theorem c7_amended_path_distinctness (cfg : Config) (env1 env2 : Env) :
    (env1.nonce ≠ env2.nonce →
      stepPathOf cfg env1 ≠ stepPathOf cfg env2 ∧
      stepPathOf cfg env1 ≠ stlPathOf cfg env2 ∧
      stlPathOf cfg env1 ≠ stepPathOf cfg env2 ∧
      stlPathOf cfg env1 ≠ stlPathOf cfg env2) ∧
    (fileExtOf env1.filename ≠ ".stl" →
      stepPathOf cfg env1 ≠ stlPathOf cfg env1) := by
  constructor
  · intro h
    refine ⟨?_, ?_, ?_, ?_⟩ <;>
    · intro he
      exact h (congrArg FsPath.nonce he)
  · intro h he
    apply h
    simpa [stepPathOf, stlPathOf, withSuffix] using congrArg FsPath.suffix he

def envW2 : Env := { envW with nonce := 8 }

theorem c7_amended_path_distinctness_witness :
    (envW.nonce ≠ envW2.nonce ∧
     (stepPathOf cfgW envW ≠ stepPathOf cfgW envW2 ∧
      stepPathOf cfgW envW ≠ stlPathOf cfgW envW2 ∧
      stlPathOf cfgW envW ≠ stepPathOf cfgW envW2 ∧
      stlPathOf cfgW envW ≠ stlPathOf cfgW envW2)) ∧
    (fileExtOf envW.filename ≠ ".stl" ∧
     stepPathOf cfgW envW ≠ stlPathOf cfgW envW) :=
  ⟨⟨by decide, (c7_amended_path_distinctness cfgW envW envW2).1 (by decide)⟩,
   ⟨by decide, (c7_amended_path_distinctness cfgW envW envW2).2 (by decide)⟩⟩

/-! ## C8 and C9: success responses -/

theorem readFs_writeFs (fs : FsState) (p : FsPath) (d : List Nat) :
    readFs (writeFs fs p d) p = d := by
  simp [readFs, writeFs]

/-- C8: every successful request to the base64 endpoint returns a JSON body of
shape `{success, original_filename, stl_filename, stl_size, stl_base64,
mesh_quality}` in which `stl_base64` is the base64 encoding of exactly the
bytes the kernel wrote to the output STL file, `stl_size` is the length of
those bytes, and base64-decoding the field recovers them exactly. -/
theorem c8_base64_success_body_roundtrip (cfg : Config) (env : Env)
    (ext : String) (size : Nat) (stl : BinaryStl)
    (hpc : env.persistCrash = none) (hv : env.valOutcome = .ok ext size)
    (hc : env.convOutcome = .ok stl) (hr : env.respondCrash = none) :
    (convert_step_to_stl_base64 cfg env).resp = .jsonOk
      { success := true,
        original_filename := env.filename,
        stl_filename := pathStem env.filename ++ ".stl",
        stl_size := stl.data.length,
        stl_base64 := b64encode stl.data,
        mesh_quality := (cfg.linear_deflection, cfg.angular_deflection) } ∧
    b64decode (b64encode stl.data) = stl.data ∧
    statusOf (convert_step_to_stl_base64 cfg env).resp = 200 := by
  obtain ⟨f, n, cont, pc, vo, co, rc⟩ := env
  simp only at hpc hv hc hr
  subst hpc
  subst hv
  subst hc
  subst hr
  refine ⟨?_, b64decode_b64encode stl.data stl.bytesLt, ?_⟩ <;>
    simp [convert_step_to_stl_base64, readFs_writeFs, statusOf]

theorem c8_base64_success_body_roundtrip_witness :
    envW.persistCrash = none ∧ envW.valOutcome = .ok ".step" 3 ∧
    envW.convOutcome = .ok stlW ∧ envW.respondCrash = none ∧
    ((convert_step_to_stl_base64 cfgW envW).resp = .jsonOk
       { success := true,
         original_filename := envW.filename,
         stl_filename := pathStem envW.filename ++ ".stl",
         stl_size := stlW.data.length,
         stl_base64 := b64encode stlW.data,
         mesh_quality := (cfgW.linear_deflection, cfgW.angular_deflection) } ∧
     b64decode (b64encode stlW.data) = stlW.data ∧
     statusOf (convert_step_to_stl_base64 cfgW envW).resp = 200) :=
  ⟨rfl, rfl, rfl, rfl,
   c8_base64_success_body_roundtrip cfgW envW ".step" 3 stlW rfl rfl rfl rfl⟩

/-- C9: every successful request to the binary endpoint streams the produced
STL file's bytes, under a download filename obtained from the uploaded
filename by replacing its final extension with `.stl` (the stem and suffix
recombine to the uploaded name's last component), the streamed size is
positive, and the headers carry the original filename, the engine name, the
output byte size, and the configured mesh quality parameters. -/
theorem c9_binary_success_response (cfg : Config) (env : Env)
    (ext : String) (size : Nat) (stl : BinaryStl)
    (hpc : env.persistCrash = none) (hv : env.valOutcome = .ok ext size)
    (hc : env.convOutcome = .ok stl) (hr : env.respondCrash = none) :
    (convert_step_to_stl cfg env).resp = .file stl.data
      (pathStem env.filename ++ ".stl")
      [("X-Original-Filename", env.filename),
       ("X-Conversion-Engine", "OpenCascade"),
       ("X-File-Size", toString stl.data.length),
       ("X-Mesh-Quality",
         "linear=" ++ cfg.linear_deflection ++ ",angular=" ++ cfg.angular_deflection)] ∧
    0 < stl.data.length ∧
    pathStem env.filename ++ pathSuffix env.filename = baseName env.filename ∧
    statusOf (convert_step_to_stl cfg env).resp = 200 := by
  obtain ⟨f, n, cont, pc, vo, co, rc⟩ := env
  simp only at hpc hv hc hr
  subst hpc
  subst hv
  subst hc
  subst hr
  have hlen := stl.minLen
  refine ⟨?_, by omega, pathStem_append_pathSuffix f, ?_⟩ <;>
    simp [convert_step_to_stl, readFs_writeFs, statusOf]

theorem c9_binary_success_response_witness :
    envW.persistCrash = none ∧ envW.valOutcome = .ok ".step" 3 ∧
    envW.convOutcome = .ok stlW ∧ envW.respondCrash = none ∧
    ((convert_step_to_stl cfgW envW).resp = .file stlW.data
       (pathStem envW.filename ++ ".stl")
       [("X-Original-Filename", envW.filename),
        ("X-Conversion-Engine", "OpenCascade"),
        ("X-File-Size", toString stlW.data.length),
        ("X-Mesh-Quality",
          "linear=" ++ cfgW.linear_deflection ++ ",angular=" ++ cfgW.angular_deflection)] ∧
     0 < stlW.data.length ∧
     pathStem envW.filename ++ pathSuffix envW.filename = baseName envW.filename ∧
     statusOf (convert_step_to_stl cfgW envW).resp = 200) :=
  ⟨rfl, rfl, rfl, rfl,
   c9_binary_success_response cfgW envW ".step" 3 stlW rfl rfl rfl rfl⟩
